import Mathlib

/-!
Verification of the cefevent CEF (Common Event Format) encoder.

The Go sources are shallowly embedded: each Go function is translated to a
Lean definition of the same name (up to capitalisation restrictions), Go
strings become Lean `String`, Go `int`/`uint`/`byte` become `Int`/`Nat`,
nil-able pointers become `Option`, and fallible operations return `Except`.
-/

namespace Cefevent

/-- Error values of the cefevent package, modelling the distinct Go `error`
values the package can return (`InvalidSeverityError`, `InvalidCefVersionErr`)
and the two wrapped errors produced by `fmt.Errorf` with `%w` inside
`Logger.Log`.  Wrapping is modelled by carrying the underlying error text. -/
inductive CefError where
  | invalidSeverity
  | invalidCefVersion
  | hostnameUnavailable (underlying : String)
  | sinkWriteFailed (underlying : String)
  deriving DecidableEq, Repr

deriving instance DecidableEq for Except

/-- The Go `Error()` message of each error value: `errors.New("invalid severity")`,
`errors.New("invalid cef version")`, `fmt.Errorf("failed to get hostname: %w", err)`
and `fmt.Errorf("failed to write log: %w", err)`. -/
def CefError.message : CefError → String
  | .invalidSeverity => "invalid severity"
  | .invalidCefVersion => "invalid cef version"
  | .hostnameUnavailable u => "failed to get hostname: " ++ u
  | .sinkWriteFailed u => "failed to write log: " ++ u

/-- One step of `headerEscapeRegex.ReplaceAllString(field, "\\${1}")` where
`headerEscapeRegex = regexp.MustCompile` of the class containing exactly the
characters pipe and backslash: each such character is replaced by a backslash
followed by the character itself; every other character is kept. -/
def escapeHeaderChar (c : Char) : List Char :=
  if c = '|' ∨ c = '\\' then ['\\', c] else [c]

/-- Embeds `escapeHeaderField` from logger.go (final revision): the regex
replacement acts independently on every character of the input, left to right. -/
def escapeHeaderField (field : String) : String :=
  ⟨field.data.flatMap escapeHeaderChar⟩

/-- One case of the `switch r` inside `escapeExtensionField`: newline becomes
backslash-n, carriage return becomes backslash-r, equals becomes
backslash-equals, backslash is doubled, anything else is kept. -/
def escapeExtensionChar (c : Char) : List Char :=
  if c = '\n' then ['\\', 'n']
  else if c = '\r' then ['\\', 'r']
  else if c = '=' then ['\\', '=']
  else if c = '\\' then ['\\', '\\']
  else [c]

/-- Embeds `escapeExtensionField` from extensions.go: a single left-to-right
pass over the runes of the input, applying `escapeExtensionChar` to each. -/
def escapeExtensionField (f : String) : String :=
  ⟨f.data.flatMap escapeExtensionChar⟩

/-- Embeds Go `strconv.Atoi`: an optional leading sign followed by at least one
decimal digit parses to the signed decimal value; anything else is an error
(`none`).  Go's `Atoi` additionally errors on 64-bit overflow while returning a
clamped value; since `validateSeverity` only tests error-ness and membership in
[0,10], representing overflowing inputs by their exact (out-of-range) value
gives the same verdict on every input. -/
def goAtoi (s : String) : Option Int :=
  match s.data with
  | [] => none
  | c :: rest =>
    let (neg, digits) :=
      if c = '-' then (true, rest)
      else if c = '+' then (false, rest)
      else (false, c :: rest)
    if digits = [] then none
    else if digits.all Char.isDigit then
      let n : Nat := digits.foldl (fun acc d => acc * 10 + (d.toNat - '0'.toNat)) 0
      some (if neg then -(n : Int) else (n : Int))
    else none

/-- Embeds `validateSeverity` from severity.go: the five canonical keywords
fall through to success; otherwise the value must `Atoi`-parse to an integer,
and a parse failure or a value outside [0,10] yields `InvalidSeverityError`. -/
def validateSeverity (sev : String) : Except CefError Unit :=
  if sev = "Unknown" ∨ sev = "Low" ∨ sev = "Medium" ∨ sev = "High" ∨ sev = "Very-High" then
    .ok ()
  else
    match goAtoi sev with
    | none => .error .invalidSeverity
    | some v => if v > 10 ∨ v < 0 then .error .invalidSeverity else .ok ()

/-- Go `time.Time` as used by the extension fields: the encoder applies only
`IsZero` and `UnixMilli` to it, so a time is modelled as `none` (the zero
value) or `some ms` (a non-zero time with Unix-millisecond value `ms`). -/
abbrev GoTime := Option Int

/-- Go `net.IP` modelled by its `String()` rendering: `none` is the nil/empty
slice, `some s` an address rendering to `s`.  The encoder only ever calls
`String()` on it and compares the result with the literal rendered by nil. -/
abbrev GoIP := Option String

/-- The `String()` method of `net.IP`: the nil or empty slice renders to the
sentinel text, any actual address to its textual form. -/
def GoIP.render : GoIP → String
  | none => "<nil>"
  | some s => s

/-- Extensions represent the additional fields in a CEF event (extensions.go,
final revision).  Field names follow the Go struct; the Go field `Type` is
called `EventType` here because `Type` is reserved in Lean.  Go `string` zero
value is `""`, nil-able pointers are `Option`, `net.HardwareAddr` is modelled
by its colon-hex `String()` rendering (`""` for a zero-length address, which
renders to `""` exactly when the slice is empty), `*time.Location` by its
`String()` name, `url.URL` by its rendered form with `""` for the zero URL,
and the `map[string]string` of custom extensions by an association list
(Go map iteration order is unspecified; the list fixes one order). -/
structure Extensions where
  Message : String := ""
  BaseEventCount : Int := 0
  ApplicationProtocol : String := ""
  EndTime : GoTime := none
  ExternalId : String := ""
  EventType : Nat := 0
  BytesIn : Option Nat := none
  BytesOut : Option Nat := none
  Outcome : String := ""
  TransportProtocol : String := ""
  Reason : String := ""
  SourceHostName : String := ""
  SourceMacAddress : String := ""
  SourceNtDomain : String := ""
  SourceDnsDomain : String := ""
  SourceServiceName : String := ""
  SourceTranslatedAddress : GoIP := none
  SourceTranslatedPort : Option Nat := none
  SourceProcessId : Option Int := none
  DestinationDnsDomain : String := ""
  DestinationServiceName : String := ""
  DestinationTranslatedAddress : GoIP := none
  DestinationTranslatedPort : Option Nat := none
  DestinationHostName : String := ""
  DestinationMacAddress : String := ""
  DestinationNtDomain : String := ""
  DestinationProcessId : Option Nat := none
  DestinationUserPrivileges : String := ""
  DestinationProcessName : String := ""
  DestinationPort : Option Nat := none
  DestinationAddress : GoIP := none
  DestinationUserId : String := ""
  DeviceAction : String := ""
  DeviceDirection : Option Nat := none
  DeviceDnsDomain : String := ""
  DeviceExternalId : String := ""
  DeviceFacility : String := ""
  DeviceInboundInterface : String := ""
  DeviceNtDomain : String := ""
  DeviceOutboundInterface : String := ""
  DevicePayloadId : String := ""
  DeviceProcessName : String := ""
  DeviceTranslatedAddress : GoIP := none
  DeviceTimeZone : Option String := none
  DeviceAddress : GoIP := none
  DeviceHostName : String := ""
  DeviceMacAddress : String := ""
  DeviceProcessId : Option Nat := none
  DeviceReceiptTime : GoTime := none
  FileCreateTime : GoTime := none
  FileHash : String := ""
  FileId : String := ""
  FileModificationTime : GoTime := none
  FilePath : String := ""
  FilePermission : String := ""
  FileType : String := ""
  FileName : String := ""
  FileSize : Option Nat := none
  OldFileCreateTime : GoTime := none
  OldFileHash : String := ""
  OldFileId : String := ""
  OldFileModificationTime : GoTime := none
  OldFileName : String := ""
  OldFilePath : String := ""
  OldFilePermission : String := ""
  OldFileSize : Option Nat := none
  OldFileType : String := ""
  RequestUrl : String := ""
  RequestClientApplication : String := ""
  RequestContext : String := ""
  RequestCookies : String := ""
  RequestMethod : String := ""
  CustomExtensions : List (String × String) := []
  deriving DecidableEq, Repr

/-- The Go zero value `Extensions{}`. -/
def Extensions.empty : Extensions := {}

/-- One `key=value` token for a Go string-typed extension field: omitted when
the field is empty, the value escaped by `escapeExtensionField` otherwise.
Mirrors the source pattern `if e.F != "" { b.WriteString(key + "=" + escapeExtensionField(e.F) + " ") }`. -/
def strField (key val : String) : List (String × String) :=
  if val = "" then [] else [(key, escapeExtensionField val)]

/-- One token for an optional field (`nil`-able pointer, `*time.Location`, or
the `Option Int` time model): omitted when absent, rendered by `f` when set. -/
def optField {α : Type} (key : String) (f : α → String) (v : Option α) : List (String × String) :=
  match v with
  | none => []
  | some a => [(key, f a)]

/-- One token for a `net.IP` field whose rendering is passed through
`escapeExtensionField`, mirroring
`if str := ip.String(); str != "<nil>" { ... escapeExtensionField(str) ... }`. -/
def ipFieldEscaped (key : String) (ip : GoIP) : List (String × String) :=
  if GoIP.render ip ≠ "<nil>" then [(key, escapeExtensionField (GoIP.render ip))] else []

/-- One token for a `net.IP` field emitted raw, mirroring
`if str := ip.String(); str != "<nil>" { ... str ... }`. -/
def ipFieldRaw (key : String) (ip : GoIP) : List (String × String) :=
  if GoIP.render ip ≠ "<nil>" then [(key, GoIP.render ip)] else []

/-- One token for a `net.HardwareAddr` field (modelled by its rendering, `""`
iff the slice is zero-length): `if len(mac) != 0 { ... mac.String() ... }`. -/
def macField (key mac : String) : List (String × String) :=
  if mac ≠ "" then [(key, mac)] else []

/-- Embeds `Extensions.marshalDestinationFields` as the list of
`key=value` pairs it writes, in source order. -/
def Extensions.marshalDestinationFields (e : Extensions) : List (String × String) :=
  strField "destinationDnsDomain" e.DestinationDnsDomain ++
  strField "destinationServiceName" e.DestinationServiceName ++
  ipFieldEscaped "destinationTranslatedAddress" e.DestinationTranslatedAddress ++
  optField "destinationTranslatedPort" toString e.DestinationTranslatedPort ++
  strField "dhost" e.DestinationHostName ++
  macField "dmac" e.DestinationMacAddress ++
  strField "dntdom" e.DestinationNtDomain ++
  optField "dpid" toString e.DestinationProcessId ++
  strField "dpriv" e.DestinationUserPrivileges ++
  strField "dproc" e.DestinationProcessName ++
  optField "dpt" toString e.DestinationPort ++
  ipFieldRaw "dst" e.DestinationAddress ++
  strField "duid" e.DestinationUserId

/-- Embeds `Extensions.marshalDeviceFields`, in source order.  The source
really does use the keys `deviceNtInterface` (for `DeviceNtDomain`) and
`dcvhost` (for `DeviceHostName`). -/
def Extensions.marshalDeviceFields (e : Extensions) : List (String × String) :=
  optField "deviceDirection" toString e.DeviceDirection ++
  strField "deviceDnsDomain" e.DeviceDnsDomain ++
  strField "deviceExternalId" e.DeviceExternalId ++
  strField "deviceFacility" e.DeviceFacility ++
  strField "deviceInboundInterface" e.DeviceInboundInterface ++
  strField "deviceNtInterface" e.DeviceNtDomain ++
  strField "deviceOutboundInterface" e.DeviceOutboundInterface ++
  strField "devicePayloadId" e.DevicePayloadId ++
  strField "deviceProcessName" e.DeviceProcessName ++
  optField "dtz" escapeExtensionField e.DeviceTimeZone ++
  ipFieldRaw "dvc" e.DeviceAddress ++
  strField "dcvhost" e.DeviceHostName ++
  macField "dvcmac" e.DeviceMacAddress ++
  optField "dvcpid" toString e.DeviceProcessId ++
  optField "rt" toString e.DeviceReceiptTime

/-- Embeds `Extensions.marshalFileFields`, in source order. -/
def Extensions.marshalFileFields (e : Extensions) : List (String × String) :=
  optField "fileCreateTime" toString e.FileCreateTime ++
  strField "fileHash" e.FileHash ++
  strField "fileId" e.FileId ++
  optField "fileModificationTime" toString e.FileModificationTime ++
  strField "filePath" e.FilePath ++
  strField "filePermission" e.FilePermission ++
  strField "fileType" e.FileType ++
  strField "fname" e.FileName ++
  optField "fsize" toString e.FileSize ++
  optField "oldFileCreateTime" toString e.OldFileCreateTime ++
  strField "oldFileHash" e.OldFileHash ++
  strField "oldFileId" e.OldFileId ++
  optField "oldFileModificationTime" toString e.OldFileModificationTime ++
  strField "oldFileName" e.OldFileName ++
  strField "oldFilePath" e.OldFilePath ++
  strField "oldFilePermission" e.OldFilePermission ++
  strField "oldFileType" e.OldFileType ++
  optField "oldFileSize" toString e.OldFileSize

/-- Embeds `Extensions.marshalHttpFields`.  As in the source, this function is
defined but never invoked by `Extensions.String`. -/
def Extensions.marshalHttpFields (e : Extensions) : List (String × String) :=
  strField "request" e.RequestUrl ++
  strField "requestClientApplication" e.RequestClientApplication ++
  strField "requestContext" e.RequestContext ++
  strField "requestCookies" e.RequestCookies ++
  strField "requestMethod" e.RequestMethod

/-- The full list of `key=value` pairs written by `Extensions.String`, in the
order the source writes them: the general fields inline in `String()`, then
the destination, device and file groups, then every custom-extension entry
with both key and value escaped.  (The source guards the group strings with
`if len(...) > 0` before appending, which is the identity on the built
string and hence dropped here.) -/
def Extensions.tokenPairs (e : Extensions) : List (String × String) :=
  strField "msg" e.Message ++
  strField "act" e.DeviceAction ++
  strField "app" e.ApplicationProtocol ++
  (if e.BaseEventCount > 1 then [("cnt", toString e.BaseEventCount)] else []) ++
  optField "end" toString e.EndTime ++
  strField "externalId" e.ExternalId ++
  (if e.EventType ≠ 0 then [("type", toString e.EventType)] else []) ++
  optField "in" toString e.BytesIn ++
  optField "out" toString e.BytesOut ++
  strField "outcome" e.Outcome ++
  strField "proto" e.TransportProtocol ++
  strField "reason" e.Reason ++
  e.marshalDestinationFields ++
  e.marshalDeviceFields ++
  e.marshalFileFields ++
  e.CustomExtensions.map (fun kv => (escapeExtensionField kv.1, escapeExtensionField kv.2))

/-- Embeds Go `strings.TrimSpace`: drop leading and trailing whitespace. -/
def goTrimSpace (s : String) : String :=
  ⟨((s.data.dropWhile Char.isWhitespace).reverse.dropWhile Char.isWhitespace).reverse⟩

/-- Embeds `Extensions.String` from extensions.go: each pair is written as
`key=value` followed by a space, and the concatenation is passed through
`strings.TrimSpace`. -/
def Extensions.toString (e : Extensions) : String :=
  goTrimSpace (String.join (e.tokenPairs.map fun kv => kv.1 ++ "=" ++ kv.2 ++ " "))

/-- `hasKey k l` holds when some emitted `key=value` pair uses key `k`; this is
the token-level reading of "the encoded extension string contains a `k=` token"
(values are escaped, so an emitted value can never fabricate a key). -/
def hasKey (k : String) (l : List (String × String)) : Bool :=
  l.any fun kv => kv.1 == k

/-- Zero-pad a number to two digits, as Go's `time.Format` does for the layout
units `15`, `04` and `05`. -/
def pad2 (n : Nat) : String :=
  if n < 10 then "0" ++ Nat.repr n else Nat.repr n

/-- Go month abbreviations used by the layout unit `Jan` (months 1-12). -/
def monthAbbrev (m : Nat) : String :=
  match m with
  | 1 => "Jan" | 2 => "Feb" | 3 => "Mar" | 4 => "Apr" | 5 => "May" | 6 => "Jun"
  | 7 => "Jul" | 8 => "Aug" | 9 => "Sep" | 10 => "Oct" | 11 => "Nov" | 12 => "Dec"
  | _ => ""

/-- The calendar instant returned by the injected `getTime` function, recording
exactly the components consumed by the layout string the logger formats with. -/
structure StampTime where
  month : Nat
  day : Nat
  hour : Nat
  minute : Nat
  second : Nat
  deriving DecidableEq, Repr

/-- Embeds Go `t.Format` with the layout `Jan 2 15:04:05` used by `Logger.Log`
(final revision): month abbreviation, space, day WITHOUT padding (the layout
unit `2`, not `_2`), space, zero-padded 24-hour time. -/
def formatStamp (t : StampTime) : String :=
  monthAbbrev t.month ++ " " ++ Nat.repr t.day ++ " " ++
    pad2 t.hour ++ ":" ++ pad2 t.minute ++ ":" ++ pad2 t.second

/-- Embeds the `Logger` struct from logger.go.  The injected function values
`getTime func() time.Time` and `getHostname func() (string, error)` are
modelled by their (pure) results: a `StampTime` and an `Except` carrying
either the hostname or the underlying error's text. -/
structure Logger where
  addSyslogHeader : Bool
  cefVersion : Nat
  getTime : StampTime
  getHostname : Except String String
  DeviceVendor : String
  DeviceProduct : String
  DeviceVersion : String
  deriving DecidableEq, Repr

/-- The behaviour of the `io.Writer` sink `l.out`: `none` means every `Write`
succeeds, `some u` means `Write` fails with an error whose text is `u`. -/
structure Sink where
  failMsg : Option String
  deriving DecidableEq, Repr

/-- The `fmt.Sprintf("CEF:%d|%s|%s|%s|%s|%s|%s|", ...)` header line built by
`Logger.Log`: the numeric version is not escaped, the seven string slots are
each passed through `escapeHeaderField`. -/
def Logger.header (l : Logger) (deviceEventClassId name severity : String) : String :=
  "CEF:" ++ Nat.repr l.cefVersion ++ "|" ++
    escapeHeaderField l.DeviceVendor ++ "|" ++
    escapeHeaderField l.DeviceProduct ++ "|" ++
    escapeHeaderField l.DeviceVersion ++ "|" ++
    escapeHeaderField deviceEventClassId ++ "|" ++
    escapeHeaderField name ++ "|" ++
    escapeHeaderField severity ++ "|"

/-- Embeds `Logger.Log` from logger.go (final revision).  The first component
is the returned `error`; the second lists the byte strings passed to
`l.out.Write`, in order (the source builds the whole line in a
`strings.Builder` and performs at most one write).  When the syslog envelope is
enabled, a failing hostname lookup aborts before anything reaches the sink;
otherwise the stamp, hostname and CEF header plus extension string form one
line handed to the sink in a single `Write` call, whose failure is wrapped. -/
def Logger.log (l : Logger) (sink : Sink) (deviceEventClassId name severity : String)
    (extensions : Extensions) : Except CefError Unit × List String :=
  let envelope : Except CefError String :=
    if l.addSyslogHeader then
      match l.getHostname with
      | .error e => .error (.hostnameUnavailable e)
      | .ok hostname => .ok (formatStamp l.getTime ++ " " ++ hostname ++ " ")
    else .ok ""
  match envelope with
  | .error e => (.error e, [])
  | .ok pre =>
    let line := pre ++ l.header deviceEventClassId name severity ++ extensions.toString
    match sink.failMsg with
    | some u => (.error (.sinkWriteFailed u), [line])
    | none => (.ok (), [line])

/-- The logger fixture of `TestLogger_Log` ("simple" case): envelope enabled,
CEF version 1, clock pinned to 2023-11-09T11:45:20Z and hostname source
pinned to `testhost`. -/
def testLogger : Logger :=
  { addSyslogHeader := true
    cefVersion := 1
    getTime := ⟨11, 9, 11, 45, 20⟩
    getHostname := .ok "testhost"
    DeviceVendor := "cyberdyne"
    DeviceProduct := "skynet"
    DeviceVersion := "0.9.0" }

/-- A sink whose writes always succeed (a `bytes.Buffer`). -/
def okSink : Sink := ⟨none⟩

/-- The always-failing sink of `TestLogger_LogError` (`errorWriter`), failing
with `stubWriterError = errors.New("underlying writer error")`. -/
def errSink : Sink := ⟨some "underlying writer error"⟩

/-- An extension set whose custom-extension map carries the reserved key
`cnt`, with `BaseEventCount` left at its zero value. -/
def c5Extensions : Extensions := { CustomExtensions := [("cnt", "0")] }

/-- An extension set with a repeated-event count and a non-base event type. -/
def c5WitnessExtensions : Extensions := { BaseEventCount := 5, EventType := 2 }

/-- An extension set with a device hostname and a device Windows domain. -/
def c10WitnessExtensions : Extensions :=
  { DeviceHostName := "evt.example.com", DeviceNtDomain := "EXAMPLE" }

/-! Helper lemmas about the escape functions. -/

theorem empty_string_append (s : String) : "" ++ s = s := rfl

theorem repr_length_one_of_lt_ten (d : Nat) (h : d < 10) : (Nat.repr d).length = 1 := by
  interval_cases d <;> rfl

theorem bind_escapeHeaderChar_id (l : List Char)
    (h : ∀ c ∈ l, c ≠ '|' ∧ c ≠ '\\') : l.flatMap escapeHeaderChar = l := by
  induction l with
  | nil => rfl
  | cons c cs ih =>
    have hc := h c (List.mem_cons_self c cs)
    have hcs : ∀ x ∈ cs, x ≠ '|' ∧ x ≠ '\\' := fun x hx => h x (List.mem_cons_of_mem c hx)
    simp [List.flatMap_cons, escapeHeaderChar, hc.1, hc.2, ih hcs]

theorem escapeHeaderField_append (a b : String) :
    escapeHeaderField (a ++ b) = escapeHeaderField a ++ escapeHeaderField b := by
  show String.mk ((a.data ++ b.data).flatMap escapeHeaderChar) = _
  rw [List.flatMap_append]
  rfl

theorem escapeExtensionField_append (a b : String) :
    escapeExtensionField (a ++ b) = escapeExtensionField a ++ escapeExtensionField b := by
  show String.mk ((a.data ++ b.data).flatMap escapeExtensionChar) = _
  rw [List.flatMap_append]
  rfl

/-! ## C2: header escaping -/

/-- C2: `escapeHeaderField` maps backslash to double-backslash and pipe to
backslash-pipe and leaves every other character unchanged: it is the identity
on every string containing neither backslash nor pipe, and it sends the string
`vendor\header|parttwo` to `vendor\\header\|parttwo`. -/
theorem c2_escapeHeaderField :
    (∀ s : String, '\\' ∉ s.data → '|' ∉ s.data → escapeHeaderField s = s) ∧
    escapeHeaderField "vendor\\header|parttwo" = "vendor\\\\header\\|parttwo" := by
  constructor
  · intro s h1 h2
    show String.mk (s.data.flatMap escapeHeaderChar) = s
    rw [bind_escapeHeaderChar_id s.data]
    intro c hc
    exact ⟨fun e => h2 (e ▸ hc), fun e => h1 (e ▸ hc)⟩
  · decide

/-- Witness for C2: the identity half evaluated at the concrete unaffected
string `vendorheader`, with both no-special-character hypotheses discharged. -/
theorem c2_escapeHeaderField_witness : escapeHeaderField "vendorheader" = "vendorheader" :=
  c2_escapeHeaderField.1 "vendorheader" (by decide) (by decide)

/-! ## C3: extension escaping -/

/-- C3: `escapeExtensionField` is a single left-to-right pass over the original
characters (it is a homomorphism for string concatenation), mapping newline to
backslash-n, carriage return to backslash-r, equals to backslash-equals,
backslash to double-backslash and every other character to itself, with the
empty string mapped to the empty string and
`answer=<CR>42\100` mapped to `answer\=\r42\\100`. -/
theorem c3_escapeExtensionField :
    (∀ a b : String, escapeExtensionField (a ++ b) = escapeExtensionField a ++ escapeExtensionField b) ∧
    escapeExtensionField "\n" = "\\n" ∧
    escapeExtensionField "\r" = "\\r" ∧
    escapeExtensionField "=" = "\\=" ∧
    escapeExtensionField "\\" = "\\\\" ∧
    (∀ c : Char, c ≠ '\n' → c ≠ '\r' → c ≠ '=' → c ≠ '\\' →
      escapeExtensionField (String.singleton c) = String.singleton c) ∧
    escapeExtensionField "" = "" ∧
    escapeExtensionField "answer=\r42\\100" = "answer\\=\\r42\\\\100" := by
  refine ⟨escapeExtensionField_append, by decide, by decide, by decide, by decide, ?_, by decide, by decide⟩
  intro c h1 h2 h3 h4
  have hc : escapeExtensionChar c = [c] := by
    unfold escapeExtensionChar
    rw [if_neg h1, if_neg h2, if_neg h3, if_neg h4]
  show String.mk ([c].flatMap escapeExtensionChar) = String.singleton c
  simp only [List.flatMap_cons, List.flatMap_nil, List.append_nil, hc]
  rfl

/-- Witness for C3: the homomorphism applied to concrete halves of the test
input and the ordinary-character case applied to the letter `a`. -/
theorem c3_escapeExtensionField_witness :
    escapeExtensionField ("answer=" ++ "\r42\\100") =
      escapeExtensionField "answer=" ++ escapeExtensionField "\r42\\100" ∧
    escapeExtensionField (String.singleton 'a') = String.singleton 'a' :=
  ⟨c3_escapeExtensionField.1 "answer=" "\r42\\100",
   c3_escapeExtensionField.2.2.2.2.2.1 'a' (by decide) (by decide) (by decide) (by decide)⟩

/-! ## C4: severity validation -/

theorem validateSeverity_keyword (s : String)
    (hk : s = "Unknown" ∨ s = "Low" ∨ s = "Medium" ∨ s = "High" ∨ s = "Very-High") :
    validateSeverity s = .ok () := by
  unfold validateSeverity
  rw [if_pos hk]

theorem validateSeverity_parse_fail (s : String)
    (hk : ¬(s = "Unknown" ∨ s = "Low" ∨ s = "Medium" ∨ s = "High" ∨ s = "Very-High"))
    (h : goAtoi s = none) : validateSeverity s = .error .invalidSeverity := by
  unfold validateSeverity
  rw [if_neg hk, h]

theorem validateSeverity_parsed (s : String) (v : Int)
    (hk : ¬(s = "Unknown" ∨ s = "Low" ∨ s = "Medium" ∨ s = "High" ∨ s = "Very-High"))
    (h : goAtoi s = some v) :
    validateSeverity s = if v > 10 ∨ v < 0 then .error .invalidSeverity else .ok () := by
  unfold validateSeverity
  rw [if_neg hk, h]

/-- C4: `validateSeverity` succeeds exactly when its argument is one of the
five case-sensitive keywords or `Atoi`-parses to an integer in [0,10]; every
other string fails with the invalid-severity error (the result is always one
of those two outcomes), and in particular `-5`, `11` and `something else` fail
while `5`, `0`, `10`, `Medium` and `Unknown` succeed. -/
theorem c4_validateSeverity :
    (∀ s : String,
      (validateSeverity s = .ok () ↔
        (s = "Unknown" ∨ s = "Low" ∨ s = "Medium" ∨ s = "High" ∨ s = "Very-High") ∨
        (∃ v : Int, goAtoi s = some v ∧ 0 ≤ v ∧ v ≤ 10)) ∧
      (validateSeverity s = .ok () ∨ validateSeverity s = .error .invalidSeverity)) ∧
    validateSeverity "-5" = .error .invalidSeverity ∧
    validateSeverity "11" = .error .invalidSeverity ∧
    validateSeverity "something else" = .error .invalidSeverity ∧
    validateSeverity "5" = .ok () ∧
    validateSeverity "0" = .ok () ∧
    validateSeverity "10" = .ok () ∧
    validateSeverity "Medium" = .ok () ∧
    validateSeverity "Unknown" = .ok () := by
  refine ⟨?_, by decide, by decide, by decide, by decide, by decide, by decide, by decide, by decide⟩
  intro s
  by_cases hk : s = "Unknown" ∨ s = "Low" ∨ s = "Medium" ∨ s = "High" ∨ s = "Very-High"
  · rw [validateSeverity_keyword s hk]
    exact ⟨by simp [hk], Or.inl rfl⟩
  · cases h : goAtoi s with
    | none =>
      rw [validateSeverity_parse_fail s hk h]
      refine ⟨⟨fun hc => absurd hc (by simp), ?_⟩, Or.inr rfl⟩
      rintro (hkw | ⟨w, hw, -, -⟩)
      · exact absurd hkw hk
      · cases hw
    | some v =>
      rw [validateSeverity_parsed s v hk h]
      by_cases hv : v > 10 ∨ v < 0
      · rw [if_pos hv]
        refine ⟨⟨fun hc => absurd hc (by simp), ?_⟩, Or.inr rfl⟩
        rintro (hkw | ⟨w, hw, hw0, hw10⟩)
        · exact absurd hkw hk
        · exfalso
          injection hw with hw
          omega
      · rw [if_neg hv]
        exact ⟨⟨fun _ => Or.inr ⟨v, rfl, by omega, by omega⟩, fun _ => rfl⟩, Or.inl rfl⟩

/-- Witness for C4: the characterisation instantiated at the concrete
severity `7`, whose parse value 7 lies inside [0,10]. -/
theorem c4_validateSeverity_witness : validateSeverity "7" = .ok () :=
  ((c4_validateSeverity.1 "7").1).mpr (Or.inr ⟨7, by decide, by decide, by decide⟩)

/-! ## C1: the fully pinned-down emission -/

/-- C1: with the syslog envelope enabled, CEF version 1, vendor `cyberdyne`,
product `skynet`, device version `0.9.0`, the clock fixed at
2023-11-09T11:45:20Z and the hostname source returning `testhost`, logging
event class `1000`, name `testevent`, severity `Low` with empty extensions
writes exactly `Nov 9 11:45:20 testhost CEF:1|cyberdyne|skynet|0.9.0|1000|testevent|Low|`
to the sink and returns success. -/
theorem c1_log_simple_event :
    Logger.log testLogger okSink "1000" "testevent" "Low" Extensions.empty =
      (.ok (), ["Nov 9 11:45:20 testhost CEF:1|cyberdyne|skynet|0.9.0|1000|testevent|Low|"]) := by
  decide

/-! ## C6: hostname failure aborts before any write -/

/-- C6: when the syslog envelope is enabled and the hostname source fails,
`Log` returns the wrapped hostname error (whose message is the wrapping text
followed by the underlying failure text) and nothing at all is passed to the
sink. -/
theorem c6_log_hostname_failure (l : Logger) (sink : Sink)
    (deviceEventClassId name severity : String) (ext : Extensions) (u : String)
    (henv : l.addSyslogHeader = true) (hh : l.getHostname = .error u) :
    Logger.log l sink deviceEventClassId name severity ext =
      (.error (.hostnameUnavailable u), []) ∧
    (CefError.hostnameUnavailable u).message = "failed to get hostname: " ++ u := by
  constructor
  · simp [Logger.log, henv, hh]
  · rfl

/-- Witness for C6: a logger whose hostname source fails with `boom` returns
the wrapped error and performs no write. -/
theorem c6_log_hostname_failure_witness :
    Logger.log { testLogger with getHostname := .error "boom" } okSink
        "1000" "testevent" "Low" Extensions.empty =
      (.error (.hostnameUnavailable "boom"), []) ∧
    (CefError.hostnameUnavailable "boom").message = "failed to get hostname: boom" :=
  c6_log_hostname_failure { testLogger with getHostname := .error "boom" } okSink
    "1000" "testevent" "Low" Extensions.empty "boom" rfl rfl

/-! ## C7: sink failure is wrapped, single write attempt -/

/-- C7: if the sink write fails with underlying text `u`, `Log` returns the
wrapped sink error, whose message is `failed to write log: ` followed by `u`,
and precisely one write was attempted. -/
theorem c7_log_sink_failure (l : Logger) (sink : Sink)
    (deviceEventClassId name severity : String) (ext : Extensions) (host u : String)
    (hh : l.addSyslogHeader = true → l.getHostname = .ok host)
    (hw : sink.failMsg = some u) :
    (Logger.log l sink deviceEventClassId name severity ext).1 =
      .error (.sinkWriteFailed u) ∧
    (CefError.sinkWriteFailed u).message = "failed to write log: " ++ u ∧
    (Logger.log l sink deviceEventClassId name severity ext).2.length = 1 := by
  cases henv : l.addSyslogHeader with
  | false => exact ⟨by simp [Logger.log, henv, hw], rfl, by simp [Logger.log, henv, hw]⟩
  | true => exact ⟨by simp [Logger.log, henv, hh henv, hw], rfl,
      by simp [Logger.log, henv, hh henv, hw]⟩

/-- Witness for C7, matching `TestLogger_LogError`: the always-failing sink
makes `Log` fail with message `failed to write log: underlying writer error`
after exactly one write attempt. -/
theorem c7_log_sink_failure_witness :
    (Logger.log testLogger errSink "9001" "scanner" "Very-High" Extensions.empty).1 =
      .error (.sinkWriteFailed "underlying writer error") ∧
    (CefError.sinkWriteFailed "underlying writer error").message =
      "failed to write log: underlying writer error" ∧
    (Logger.log testLogger errSink "9001" "scanner" "Very-High" Extensions.empty).2.length = 1 :=
  c7_log_sink_failure testLogger errSink "9001" "scanner" "Very-High" Extensions.empty
    "testhost" "underlying writer error" (fun _ => rfl) rfl

/-! ## C8: the shape of the syslog stamp -/

/-- C8 counterexample: under the C1 fixture (9 November) the emitted line
renders the day as the single character `9` (`Nov 9 ...`), not as the
space-padded two-character field ` 9` (`Nov  9 ...`) the claim asserts. -/
theorem c8_counterexample_unpadded_day :
    (Logger.log testLogger okSink "1000" "testevent" "Low" Extensions.empty).2 =
      ["Nov 9 11:45:20 testhost CEF:1|cyberdyne|skynet|0.9.0|1000|testevent|Low|"] ∧
    (Logger.log testLogger okSink "1000" "testevent" "Low" Extensions.empty).2 ≠
      ["Nov  9 11:45:20 testhost CEF:1|cyberdyne|skynet|0.9.0|1000|testevent|Low|"] := by
  decide

/-- C8 amended: with the envelope enabled, the emitted line starts with a
month/day/time stamp of the form `Mon D HH:MM:SS` whose day is UNPADDED (a
single-digit day renders as one character), followed by a space, the
hostname, and a space. -/
theorem c8_stamp_shape (l : Logger) (sink : Sink)
    (deviceEventClassId name severity : String) (ext : Extensions) (host : String)
    (henv : l.addSyslogHeader = true) (hh : l.getHostname = .ok host) :
    (Logger.log l sink deviceEventClassId name severity ext).2 =
      [monthAbbrev l.getTime.month ++ " " ++ Nat.repr l.getTime.day ++ " " ++
        pad2 l.getTime.hour ++ ":" ++ pad2 l.getTime.minute ++ ":" ++ pad2 l.getTime.second ++
        " " ++ host ++ " " ++ l.header deviceEventClassId name severity ++ ext.toString] ∧
    (l.getTime.day < 10 → (Nat.repr l.getTime.day).length = 1) := by
  constructor
  · cases hf : sink.failMsg <;> simp [Logger.log, henv, hh, hf, formatStamp]
  · exact repr_length_one_of_lt_ten l.getTime.day

/-- Witness for C8's amended statement: instantiated at the C1 fixture, where
the day 9 renders with width one. -/
theorem c8_stamp_shape_witness :
    (Logger.log testLogger okSink "1000" "testevent" "Low" Extensions.empty).2 =
      [monthAbbrev testLogger.getTime.month ++ " " ++ Nat.repr testLogger.getTime.day ++ " " ++
        pad2 testLogger.getTime.hour ++ ":" ++ pad2 testLogger.getTime.minute ++ ":" ++
        pad2 testLogger.getTime.second ++ " " ++ "testhost" ++ " " ++
        testLogger.header "1000" "testevent" "Low" ++ Extensions.empty.toString] ∧
    (testLogger.getTime.day < 10 → (Nat.repr testLogger.getTime.day).length = 1) :=
  c8_stamp_shape testLogger okSink "1000" "testevent" "Low" Extensions.empty "testhost" rfl rfl

/-! ## C9: Log never consults the severity validator -/

/-- C9: `Log` never returns the invalid-severity error for any configuration
and any arguments; with a non-failing sink (and a working hostname source when
the envelope is on), it succeeds for EVERY severity string and the written
line embeds the header-escaped severity text as the seventh pipe-delimited
header slot. -/
theorem c9_log_skips_severity_validation :
    (∀ (l : Logger) (sink : Sink) (deviceEventClassId name severity : String) (ext : Extensions),
      (Logger.log l sink deviceEventClassId name severity ext).1 ≠ .error .invalidSeverity) ∧
    (∀ (l : Logger) (sink : Sink) (deviceEventClassId name severity : String) (ext : Extensions)
        (host : String),
      sink.failMsg = none → l.addSyslogHeader = true → l.getHostname = .ok host →
      Logger.log l sink deviceEventClassId name severity ext =
        (.ok (), [formatStamp l.getTime ++ " " ++ host ++ " " ++
          l.header deviceEventClassId name severity ++ ext.toString])) ∧
    (∀ (l : Logger) (sink : Sink) (deviceEventClassId name severity : String) (ext : Extensions),
      sink.failMsg = none → l.addSyslogHeader = false →
      Logger.log l sink deviceEventClassId name severity ext =
        (.ok (), [l.header deviceEventClassId name severity ++ ext.toString])) ∧
    (∀ (l : Logger) (deviceEventClassId name severity : String),
      l.header deviceEventClassId name severity =
        "CEF:" ++ Nat.repr l.cefVersion ++ "|" ++
        escapeHeaderField l.DeviceVendor ++ "|" ++
        escapeHeaderField l.DeviceProduct ++ "|" ++
        escapeHeaderField l.DeviceVersion ++ "|" ++
        escapeHeaderField deviceEventClassId ++ "|" ++
        escapeHeaderField name ++ "|" ++
        escapeHeaderField severity ++ "|") := by
  refine ⟨?_, ?_, ?_, fun _ _ _ _ => rfl⟩
  · intro l sink id name sev ext
    unfold Logger.log
    cases henv : l.addSyslogHeader with
    | false =>
      cases hf : sink.failMsg <;> simp [hf]
    | true =>
      cases hh : l.getHostname with
      | error u => simp [hh]
      | ok host => cases hf : sink.failMsg <;> simp [hh, hf]
  · intro l sink id name sev ext host hf henv hh
    simp [Logger.log, henv, hh, hf]
  · intro l sink id name sev ext hf henv
    simp [Logger.log, henv, hf, empty_string_append]

/-- Witness for C9: a misspelled, out-of-range severity `Wery-High11` is
embedded untouched and the call succeeds on the C1 fixture. -/
theorem c9_log_skips_severity_validation_witness :
    (Logger.log testLogger okSink "1000" "testevent" "Wery-High11" Extensions.empty).1 ≠
      .error .invalidSeverity ∧
    Logger.log testLogger okSink "1000" "testevent" "Wery-High11" Extensions.empty =
      (.ok (), [formatStamp testLogger.getTime ++ " " ++ "testhost" ++ " " ++
        testLogger.header "1000" "testevent" "Wery-High11" ++ Extensions.empty.toString]) :=
  ⟨c9_log_skips_severity_validation.1 testLogger okSink "1000" "testevent" "Wery-High11"
      Extensions.empty,
   c9_log_skips_severity_validation.2.1 testLogger okSink "1000" "testevent" "Wery-High11"
      Extensions.empty "testhost" rfl rfl rfl⟩

/-! ## C5 and C10: which keys the extension encoder emits -/

theorem hasKey_append (k : String) (a b : List (String × String)) :
    hasKey k (a ++ b) = (hasKey k a || hasKey k b) := by
  unfold hasKey
  exact List.any_append

theorem hasKey_strField (k key v : String) :
    hasKey k (strField key v) = (!(v == "") && (key == k)) := by
  unfold hasKey strField
  by_cases h : v = "" <;> simp [h]

theorem hasKey_optField {α : Type} (k key : String) (f : α → String) (v : Option α) :
    hasKey k (optField key f v) = (v.isSome && (key == k)) := by
  cases v <;> simp [hasKey, optField]

theorem hasKey_ipFieldEscaped (k key : String) (ip : GoIP) :
    hasKey k (ipFieldEscaped key ip) = (!(GoIP.render ip == "<nil>") && (key == k)) := by
  unfold hasKey ipFieldEscaped
  by_cases h : GoIP.render ip = "<nil>" <;> simp [h]

theorem hasKey_ipFieldRaw (k key : String) (ip : GoIP) :
    hasKey k (ipFieldRaw key ip) = (!(GoIP.render ip == "<nil>") && (key == k)) := by
  unfold hasKey ipFieldRaw
  by_cases h : GoIP.render ip = "<nil>" <;> simp [h]

theorem hasKey_macField (k key mac : String) :
    hasKey k (macField key mac) = (!(mac == "") && (key == k)) := by
  unfold hasKey macField
  by_cases h : mac = "" <;> simp [h]

theorem hasKey_ite (k : String) (c : Prop) [Decidable c] (x : String × String) :
    hasKey k (if c then [x] else []) = (decide c && (x.1 == k)) := by
  by_cases h : c <;> simp [hasKey, h]

theorem hasKey_custom (k : String) (ce : List (String × String)) :
    hasKey k (ce.map fun kv => (escapeExtensionField kv.1, escapeExtensionField kv.2)) =
      ce.any fun kv => escapeExtensionField kv.1 == k := by
  unfold hasKey
  rw [List.any_map]
  rfl

theorem hasKey_cnt (e : Extensions)
    (hc : ∀ kv ∈ e.CustomExtensions, escapeExtensionField kv.1 ≠ "cnt") :
    hasKey "cnt" e.tokenPairs = decide (e.BaseEventCount > 1) := by
  have hcust : (e.CustomExtensions.any fun kv => escapeExtensionField kv.1 == "cnt") = false := by
    rw [List.any_eq_false]
    intro kv hkv
    simp [hc kv hkv]
  unfold Extensions.tokenPairs Extensions.marshalDestinationFields
    Extensions.marshalDeviceFields Extensions.marshalFileFields
  simp only [hasKey_append, hasKey_strField, hasKey_optField, hasKey_ipFieldEscaped,
    hasKey_ipFieldRaw, hasKey_macField, hasKey_ite, hasKey_custom]
  simp [hcust]

theorem hasKey_type (e : Extensions)
    (hc : ∀ kv ∈ e.CustomExtensions, escapeExtensionField kv.1 ≠ "type") :
    hasKey "type" e.tokenPairs = decide (e.EventType ≠ 0) := by
  have hcust : (e.CustomExtensions.any fun kv => escapeExtensionField kv.1 == "type") = false := by
    rw [List.any_eq_false]
    intro kv hkv
    simp [hc kv hkv]
  unfold Extensions.tokenPairs Extensions.marshalDestinationFields
    Extensions.marshalDeviceFields Extensions.marshalFileFields
  simp only [hasKey_append, hasKey_strField, hasKey_optField, hasKey_ipFieldEscaped,
    hasKey_ipFieldRaw, hasKey_macField, hasKey_ite, hasKey_custom]
  simp [hcust]

/-- C5 counterexample: the extension set with custom entry `cnt → 0` and
`BaseEventCount = 0` emits a `cnt=` token although the count is not greater
than 1, so the claimed unconditional equivalence fails. -/
theorem c5_counterexample_custom_cnt :
    ¬((hasKey "cnt" c5Extensions.tokenPairs = true) ↔ c5Extensions.BaseEventCount > 1) := by
  decide

/-- C5 amended: for every extension set whose custom-extension keys do not
escape to the reserved key names `cnt` or `type`, the encoder emits a `cnt=`
token iff `BaseEventCount` is strictly greater than 1 and a `type=` token iff
the event type is non-zero (the base type 0 and a count of exactly 1 are
omitted). -/
theorem c5_cnt_type_emission (e : Extensions)
    (hc : ∀ kv ∈ e.CustomExtensions,
      escapeExtensionField kv.1 ≠ "cnt" ∧ escapeExtensionField kv.1 ≠ "type") :
    (hasKey "cnt" e.tokenPairs = true ↔ e.BaseEventCount > 1) ∧
    (hasKey "type" e.tokenPairs = true ↔ e.EventType ≠ 0) := by
  constructor
  · rw [hasKey_cnt e fun kv h => (hc kv h).1]
    simp
  · rw [hasKey_type e fun kv h => (hc kv h).2]
    simp

/-- Witness for C5's amended statement: an extension set with count 5 and
type 2 (and no custom entries) emits both tokens. -/
theorem c5_cnt_type_emission_witness :
    (hasKey "cnt" c5WitnessExtensions.tokenPairs = true ↔
      c5WitnessExtensions.BaseEventCount > 1) ∧
    (hasKey "type" c5WitnessExtensions.tokenPairs = true ↔
      c5WitnessExtensions.EventType ≠ 0) :=
  c5_cnt_type_emission c5WitnessExtensions (by decide)

/-- C10: a non-empty `DeviceHostName` is emitted under the key `dcvhost` and a
non-empty `DeviceNtDomain` under the key `deviceNtInterface`, while the device
field group never uses the CEF abbreviations `dvchost` or `deviceNtDomain` as
keys. -/
theorem c10_device_key_typos (e : Extensions) :
    (e.DeviceHostName ≠ "" →
      ("dcvhost", escapeExtensionField e.DeviceHostName) ∈ e.tokenPairs) ∧
    (e.DeviceNtDomain ≠ "" →
      ("deviceNtInterface", escapeExtensionField e.DeviceNtDomain) ∈ e.tokenPairs) ∧
    hasKey "dvchost" e.marshalDeviceFields = false ∧
    hasKey "deviceNtDomain" e.marshalDeviceFields = false := by
  refine ⟨?_, ?_, ?_, ?_⟩
  · intro h
    simp [Extensions.tokenPairs, Extensions.marshalDeviceFields, strField, h]
  · intro h
    simp [Extensions.tokenPairs, Extensions.marshalDeviceFields, strField, h]
  · unfold Extensions.marshalDeviceFields
    simp only [hasKey_append, hasKey_strField, hasKey_optField, hasKey_ipFieldRaw,
      hasKey_macField]
    simp
  · unfold Extensions.marshalDeviceFields
    simp only [hasKey_append, hasKey_strField, hasKey_optField, hasKey_ipFieldRaw,
      hasKey_macField]
    simp

/-- Witness for C10: an extension set with both device fields set emits both
typo'd keys. -/
theorem c10_device_key_typos_witness :
    ("dcvhost", escapeExtensionField c10WitnessExtensions.DeviceHostName) ∈
      c10WitnessExtensions.tokenPairs ∧
    ("deviceNtInterface", escapeExtensionField c10WitnessExtensions.DeviceNtDomain) ∈
      c10WitnessExtensions.tokenPairs :=
  ⟨(c10_device_key_typos c10WitnessExtensions).1 (by decide),
   (c10_device_key_typos c10WitnessExtensions).2.1 (by decide)⟩

end Cefevent
